import Mathlib

/-!
Verification development for the PropPulse prop-verification core.

The Python sources are shallowly embedded:
* Python strings are modelled as lists of characters (PyStr); str.upper,
  str.lower, str.strip, str.replace and the substring test are modelled
  character-by-character over ASCII, matching CPython behaviour on the
  ASCII data this program handles.
* Python floats are modelled as rationals; the box-score stat fields are
  integers.  Only comparisons, sums, absolute values and division occur,
  all exact on these inputs.
* Network calls are modelled by passing the response environment as a
  function argument; the per-request decision logic of the source is
  embedded verbatim.  Rate-limit sleeps and print statements are dropped.
* Python dicts with a fixed key set become structures; dict .get on the
  numeric stat keys becomes an explicit lookup function.
-/

namespace PropPulse

/-- Python strings, modelled as lists of characters. -/
abbrev PyStr := List Char

/-- The characters removed by str.strip with no argument
(space, tab, newline, carriage return, vertical tab, form feed). -/
def pySpace (c : Char) : Bool :=
  decide (c.toNat = 32 ∨ c.toNat = 9 ∨ c.toNat = 10 ∨ c.toNat = 13 ∨
          c.toNat = 11 ∨ c.toNat = 12)

/-- str.upper, character by character (ASCII, via Char.toUpper). -/
def upperStr (s : PyStr) : PyStr := s.map Char.toUpper

/-- str.lower, character by character (ASCII, via Char.toLower). -/
def lowerStr (s : PyStr) : PyStr := s.map Char.toLower

/-- Drop leading whitespace (the left half of str.strip). -/
def stripLeft (s : PyStr) : PyStr := s.dropWhile pySpace

/-- Drop trailing whitespace (the right half of str.strip). -/
def stripRight (s : PyStr) : PyStr := (s.reverse.dropWhile pySpace).reverse

/-- str.strip with no argument: remove leading and trailing whitespace. -/
def pyStrip (s : PyStr) : PyStr := stripRight (stripLeft s)

/-- Python substring containment: pat in l. -/
def containsSub (l pat : PyStr) : Bool :=
  match l with
  | [] => pat.isEmpty
  | _ :: t => pat.isPrefixOf l || containsSub t pat

/-- Recursion core of str.replace: the fuel argument, instantiated with
the length of the string, makes the recursion structural (a nonempty
matched pattern always consumes at least one character, so the fuel
never runs out). -/
def replace_go (pat rep : PyStr) : Nat → PyStr → PyStr
  | _, [] => []
  | 0, l => l
  | fuel + 1, c :: t =>
    if ¬ pat.isEmpty ∧ pat.isPrefixOf (c :: t) then
      rep ++ replace_go pat rep fuel (List.drop pat.length (c :: t))
    else
      c :: replace_go pat rep fuel t

/-- str.replace pat rep, scanning left to right, non-overlapping
(the patterns used by the source are all nonempty). -/
def replace_sub (pat rep : PyStr) (l : PyStr) : PyStr :=
  replace_go pat rep l.length l

/-- str.split with no argument: split on whitespace runs, dropping
empty pieces. -/
def split_ws (l : PyStr) : List PyStr :=
  (l.foldr
    (fun c acc =>
      if pySpace c then [] :: acc
      else
        match acc with
        | [] => [[c]]
        | w :: ws => (c :: w) :: ws)
    [[]]).filter (fun w => ¬ w.isEmpty)

/-- Lexicographic comparison of strings by code point, as Python compares
str values: s is less than or equal to t. -/
def lexLe : PyStr → PyStr → Bool
  | [], _ => true
  | _ :: _, [] => false
  | a :: s, b :: t =>
    if a.toNat < b.toNat then true
    else if b.toNat < a.toNat then false
    else lexLe s t

end PropPulse

namespace PropPulse

/-!  Embedding of display_results.py  -/

/-- get_ev_tier from display_results.py, translated branch for branch
(including the redundant first branch at 20). -/
def get_ev_tier (ev_pct : ℚ) : String × String :=
  if ev_pct ≥ 20 then ("🔥🔥🔥", "ELITE")
  else if ev_pct ≥ 15 then ("🔥🔥🔥", "ELITE")
  else if ev_pct ≥ 10 then ("🔥🔥", "STRONG")
  else if ev_pct ≥ 5 then ("🔥", "GOOD")
  else if ev_pct > 0 then ("✅", "SLIGHT")
  else ("⚠️", "NEGATIVE")

/-- The integer score accumulated by get_confidence_level in
display_results.py: the score starts at 0 and the three elif chains add
their contributions; the mutation is translated to a sum of the three
if-chains. -/
def confidence_score (model_prob projection line : ℚ) (n_games : Int) : Int :=
  (if model_prob ≥ 0.60 then 3
   else if model_prob ≥ 0.55 then 2
   else if model_prob ≥ 0.52 then 1
   else 0)
  +
  (let gap_pct : ℚ := if line ≠ 0 then |projection - line| / line else 0
   if gap_pct ≥ 0.15 then 2
   else if gap_pct ≥ 0.10 then 1
   else 0)
  +
  (if n_games ≥ 30 then 2
   else if n_games ≥ 20 then 1
   else 0)

/-- get_confidence_level from display_results.py: the accumulated score
mapped to its emoji and label bucket. -/
def get_confidence_level (model_prob projection line : ℚ) (n_games : Int) :
    String × String :=
  let score := confidence_score model_prob projection line n_games
  if score ≥ 6 then ("🟢", "HIGH")
  else if score ≥ 4 then ("🟡", "MEDIUM")
  else if score ≥ 2 then ("🟠", "LOW")
  else ("🔴", "VERY LOW")

/-- One scored prop record as consumed by sort_results (the dict fields
read by the sort keys). -/
structure PropResult where
  player : String
  stat : String
  line : ℚ
  projection : ℚ
  p_model : ℚ
  p_book : ℚ
  ev : ℚ
  odds : Int
  n_games : Int
deriving DecidableEq

/-- The confidence bucket label of a record, as the confidence sort key
reads it: element 1 of the pair returned by get_confidence_level. -/
def conf_label (r : PropResult) : PyStr :=
  ((get_confidence_level r.p_model r.projection r.line r.n_games).2).data

/-- Descending relation on records by confidence bucket label, compared as
Python compares the label strings. -/
def conf_rel (x y : PropResult) : Prop :=
  lexLe (conf_label y) (conf_label x) = true

instance : DecidableRel conf_rel := fun x y => by
  unfold conf_rel
  infer_instance

/-- Descending relation on records by a rational-valued key. -/
def keyQ_rel (key : PropResult → ℚ) (x y : PropResult) : Prop :=
  key y ≤ key x

instance (key : PropResult → ℚ) : DecidableRel (keyQ_rel key) := fun x y => by
  unfold keyQ_rel
  infer_instance

/-- sort_results from display_results.py.  Python sorted is a stable
sort; it is modelled by insertion sort, which is stable for the
relations used here (ties are never reordered).  reverse=True becomes a
descending relation on the respective key. -/
def sort_results (results : List PropResult) (sort_by : String) :
    List PropResult :=
  if sort_by = "prob" then
    List.insertionSort (keyQ_rel (fun x => x.p_model)) results
  else if sort_by = "projection" then
    List.insertionSort (keyQ_rel (fun x => x.projection)) results
  else if sort_by = "edge" then
    List.insertionSort (keyQ_rel (fun x => |x.p_model - x.p_book|)) results
  else if sort_by = "odds" then
    List.insertionSort (keyQ_rel (fun x => (x.odds : ℚ))) results
  else if sort_by = "confidence" then
    List.insertionSort conf_rel results
  else
    List.insertionSort (keyQ_rel (fun x => x.ev)) results

end PropPulse

namespace PropPulse

/-!  Embedding of nba_stats_fetcher.py  -/

/-- The common-variation mapping at the end of normalize_opponent: the
two-letter forms NO, NY, SA become their three-letter abbreviations,
everything else passes through. -/
def map_team_abbr (t : PyStr) : PyStr :=
  if t = ("NO").data then ("NOP").data
  else if t = ("NY").data then ("NYK").data
  else if t = ("SA").data then ("SAS").data
  else t

/-- normalize_opponent from nba_stats_fetcher.py.  A falsy argument
(None or the empty string) yields None; otherwise the string is
uppercased and stripped and the two-letter forms NO, NY, SA are mapped
to their three-letter abbreviations. -/
def normalize_opponent (opponent : Option PyStr) : Option PyStr :=
  match opponent with
  | none => none
  | some s =>
    if s.isEmpty then none
    else some (map_team_abbr (pyStrip (upperStr s)))

/-- The static team_aliases table of NBAStatsFetcherBallDontLie, as an
association list in source order. -/
def team_aliases : List (PyStr × List PyStr) :=
  [(("PHX").data, [("PHOENIX").data, ("SUNS").data]),
   (("GSW").data, [("GOLDEN STATE").data, ("WARRIORS").data]),
   (("LAL").data, [("LA LAKERS").data, ("LAKERS").data, ("LOS ANGELES LAKERS").data]),
   (("LAC").data, [("LA CLIPPERS").data, ("CLIPPERS").data, ("LOS ANGELES CLIPPERS").data]),
   (("NYK").data, [("NEW YORK").data, ("KNICKS").data]),
   (("BKN").data, [("BROOKLYN").data, ("NETS").data]),
   (("NOP").data, [("NEW ORLEANS").data, ("PELICANS").data]),
   (("NO").data, [("NEW ORLEANS").data, ("PELICANS").data]),
   (("SAS").data, [("SAN ANTONIO").data, ("SPURS").data]),
   (("SA").data, [("SAN ANTONIO").data, ("SPURS").data]),
   (("CHI").data, [("CHICAGO").data, ("BULLS").data]),
   (("CHA").data, [("CHARLOTTE").data, ("HORNETS").data]),
   (("DET").data, [("DETROIT").data, ("PISTONS").data]),
   (("ORL").data, [("ORLANDO").data, ("MAGIC").data]),
   (("MIA").data, [("MIAMI").data, ("HEAT").data]),
   (("MEM").data, [("MEMPHIS").data, ("GRIZZLIES").data]),
   (("POR").data, [("PORTLAND").data, ("TRAIL BLAZERS").data]),
   (("TOR").data, [("TORONTO").data, ("RAPTORS").data]),
   (("WAS").data, [("WASHINGTON").data, ("WIZARDS").data]),
   (("HOU").data, [("HOUSTON").data, ("ROCKETS").data]),
   (("ATL").data, [("ATLANTA").data, ("HAWKS").data]),
   (("BOS").data, [("BOSTON").data, ("CELTICS").data]),
   (("CLE").data, [("CLEVELAND").data, ("CAVALIERS").data]),
   (("DAL").data, [("DALLAS").data, ("MAVERICKS").data]),
   (("DEN").data, [("DENVER").data, ("NUGGETS").data]),
   (("IND").data, [("INDIANA").data, ("PACERS").data]),
   (("MIL").data, [("MILWAUKEE").data, ("BUCKS").data]),
   (("MIN").data, [("MINNESOTA").data, ("TIMBERWOLVES").data]),
   (("OKC").data, [("OKLAHOMA CITY").data, ("THUNDER").data]),
   (("PHI").data, [("PHILADELPHIA").data, ("76ERS").data]),
   (("SAC").data, [("SACRAMENTO").data, ("KINGS").data]),
   (("UTA").data, [("UTAH").data, ("JAZZ").data])]

/-- Dict membership and lookup on the alias table:
target in self.team_aliases followed by self.team_aliases[target]. -/
def alias_lookup (target : PyStr) : Option (List PyStr) :=
  (team_aliases.find? (fun e => e.1 = target)).map (fun e => e.2)

/-- One team object from the upstream API (abbreviation and full_name). -/
structure Team where
  abbreviation : PyStr
  full_name : PyStr
deriving DecidableEq

/-- Full game detail as returned by GET /games/id. -/
structure GameDetail where
  home_team : Team
  visitor_team : Team
  date : PyStr
deriving DecidableEq

/-- One box-score row from GET /stats: the numeric stat fields (None
models a null JSON value), the player team and the id and date of the
referenced game. -/
structure GameStat where
  pts : Option Int
  reb : Option Int
  ast : Option Int
  fg3m : Option Int
  team : Team
  game_id : Nat
  game_date : PyStr
deriving DecidableEq

/-- The for-alias loop inside match_opponent: first alias that is a
substring of the uppercased home or visitor full name wins, home side
checked first. -/
def alias_scan (home visitor : Team) : List PyStr → Option (Team × PyStr)
  | [] => none
  | a :: rest =>
    if containsSub (upperStr home.full_name) a then some (home, ("vs").data)
    else if containsSub (upperStr visitor.full_name) a then some (visitor, ("@").data)
    else alias_scan home visitor rest

/-- match_opponent from nba_stats_fetcher.py: a falsy target matches
nothing; otherwise the normalized target is compared with the uppercased
home and visitor abbreviations, and failing that its alias list is
scanned against the uppercased full names.  (False, None, None) is
modelled as none, a match as some of the matched team together with the
location string. -/
def match_opponent (home_team visitor_team : Team) (target_opponent : Option PyStr) :
    Option (Team × PyStr) :=
  match target_opponent with
  | none => none
  | some s =>
    if s.isEmpty then none
    else
      let target := (normalize_opponent (some s)).getD []
      let home_abbr := upperStr home_team.abbreviation
      let visitor_abbr := upperStr visitor_team.abbreviation
      if target = home_abbr then some (home_team, ("vs").data)
      else if target = visitor_abbr then some (visitor_team, ("@").data)
      else
        match alias_lookup target with
        | none => none
        | some aliases => alias_scan home_team visitor_team aliases

/-- x or 0 applied to game_stat.get(key, 0): a missing or null upstream
stat field is coerced to 0. -/
def orZero (v : Option Int) : Int :=
  match v with
  | none => 0
  | some n => n

/-- full_game.get(date, ).split(T)[0]: the date part before the first
letter T. -/
def split_date (s : PyStr) : PyStr := s.takeWhile (fun c => c ≠ 'T')

/-- The dict returned by fetch_player_game_stats: all eight keys — the
four coerced stat fields plus game_date, matchup, match_method and
days_old (the day difference between the cutoff date and the matched
game date). -/
structure StatsDict where
  PTS : Int
  REB : Int
  AST : Int
  FG3M : Int
  game_date : PyStr
  matchup : PyStr
  match_method : String
  days_old : Int
deriving DecidableEq

/-- Construction of the returned stats dict from a box-score row. -/
def mk_stats (gs : GameStat) (game_date matchup : PyStr) (method : String)
    (days_old : Int) : StatsDict :=
  { PTS := orZero gs.pts
    REB := orZero gs.reb
    AST := orZero gs.ast
    FG3M := orZero gs.fg3m
    game_date := game_date
    matchup := matchup
    match_method := method
    days_old := days_old }

/-- The opponent-matching loop of fetch_player_game_stats: rows whose
game detail was not resolved are skipped; the first row whose game
matches the target opponent is returned with matchup
player abbreviation, location, opponent abbreviation and
match_method BallDontLie API; if no row matches, None.  days_of maps a
split game date to the day difference from the ambient cutoff date
(the datetime subtraction of the source, passed as an environment). -/
def find_matching (details : Nat → Option GameDetail) (days_of : PyStr → Int)
    (opp : Option PyStr) : List GameStat → Option StatsDict
  | [] => none
  | gs :: rest =>
    match details gs.game_id with
    | none => find_matching details days_of opp rest
    | some fg =>
      match match_opponent fg.home_team fg.visitor_team opp with
      | none => find_matching details days_of opp rest
      | some (opp_team, loc) =>
        some (mk_stats gs (split_date fg.date)
          (gs.team.abbreviation ++ (" ").data ++ loc ++ (" ").data ++
            opp_team.abbreviation)
          "BallDontLie API"
          (days_of (split_date fg.date)))

/-- The no-opponent branch of fetch_player_game_stats: rows sorted by
game date descending (Python sorted on the date strings, reverse=True),
the most recent row returned with match_method Most recent; the matchup
label depends on whether the game detail was resolved. -/
def most_recent (details : Nat → Option GameDetail) (days_of : PyStr → Int)
    (games : List GameStat) : Option StatsDict :=
  match List.insertionSort
      (fun x y : GameStat => lexLe y.game_date x.game_date = true) games with
  | [] => none
  | mr :: _ =>
    let matchup :=
      match details mr.game_id with
      | some fg =>
        if mr.team.abbreviation = fg.home_team.abbreviation then
          mr.team.abbreviation ++ (" vs ").data ++ fg.visitor_team.abbreviation
        else
          mr.team.abbreviation ++ (" @ ").data ++ fg.home_team.abbreviation
      | none => mr.team.abbreviation ++ (" (opponent unknown)").data
    some (mk_stats mr (split_date mr.game_date) matchup "Most recent"
      (days_of (split_date mr.game_date)))

/-- The game-selection core of fetch_player_game_stats, after the HTTP
fetches: an empty window returns None; with a truthy opponent the
normalized opponent must match a game (no fallback); otherwise the most
recent game is used. -/
def select_game (games : List GameStat) (details : Nat → Option GameDetail)
    (days_of : PyStr → Int) (opponent : Option PyStr) : Option StatsDict :=
  if games.isEmpty then none
  else
    match opponent with
    | some o =>
      if ¬ o.isEmpty then
        find_matching details days_of (normalize_opponent (some o)) games
      else most_recent details days_of games
    | none => most_recent details days_of games

/-- Whether one box-score row is accepted by the opponent loop: its game
detail is resolved and match_opponent succeeds on that game. -/
def row_matches (details : Nat → Option GameDetail) (opp : Option PyStr)
    (gs : GameStat) : Bool :=
  match details gs.game_id with
  | none => false
  | some fg => (match_opponent fg.home_team fg.visitor_team opp).isSome

/-- Concrete fixture: the Golden State team object. -/
def gswTeam : Team :=
  { abbreviation := ("GSW").data, full_name := ("Golden State Warriors").data }

/-- Concrete fixture: the Boston team object. -/
def bosTeam : Team :=
  { abbreviation := ("BOS").data, full_name := ("Boston Celtics").data }

/-- Concrete fixture: one box-score row of game 1. -/
def sampleGame : GameStat :=
  { pts := some 20, reb := some 10, ast := some 5, fg3m := some 2,
    team := gswTeam, game_id := 1, game_date := ("2025-11-10").data }

/-- Concrete fixture: the full detail of game 1, Golden State hosting
Boston. -/
def sampleDetail : GameDetail :=
  { home_team := gswTeam, visitor_team := bosTeam,
    date := ("2025-11-10T00:00:00Z").data }

/-- Concrete fixture: the game-detail environment resolving game 1
only. -/
def sampleDetails : Nat → Option GameDetail :=
  fun n => if n = 1 then some sampleDetail else none

/-- Concrete fixture: a fully populated stats dict. -/
def dFix : StatsDict :=
  { PTS := 20, REB := 10, AST := 5, FG3M := 2,
    game_date := ("2025-11-10").data, matchup := [],
    match_method := "BallDontLie API", days_old := 1 }

/-- Concrete fixture: a box-score row whose rebound field is null
upstream. -/
def nullRebGame : GameStat :=
  { pts := some 20, reb := none, ast := some 5, fg3m := some 2,
    team := { abbreviation := [], full_name := [] }, game_id := 1,
    game_date := [] }

/-- Concrete fixture: a record whose confidence score is 7, bucket
HIGH. -/
def hiRec : PropResult :=
  { player := "A", stat := "PTS", line := 25, projection := 30,
    p_model := 1, p_book := 0, ev := 0, odds := -110, n_games := 35 }

/-- Concrete fixture: a record whose confidence score is 0, bucket
VERY LOW. -/
def loRec : PropResult :=
  { player := "B", stat := "PTS", line := 25, projection := 25,
    p_model := 0, p_book := 0, ev := 1, odds := -110, n_games := 0 }

/-- A spreadsheet cell of the result columns: a number, a text value, or
the empty initial value the column was created with. -/
inductive CellVal where
  | num : Int → CellVal
  | text : String → CellVal
  | empty : CellVal
deriving DecidableEq

/-- The result columns written for one row by update_excel_with_results
(Actual_Stat, Hit_Miss, Result; Hit_Miss and Result keep their empty
initial value as the empty string when the branch does not assign
them). -/
structure RowResult where
  actual_stat : CellVal
  hit_miss : String
  result : String
deriving DecidableEq

/-- A Python value held by the returned dict: an integer or a string
(the dict is heterogeneous). -/
inductive PyVal where
  | int : Int → PyVal
  | str : PyStr → PyVal
deriving DecidableEq

/-- stats.get(stat_type, None) over the real eight keys of the returned
dict: the four base stat names and days_old resolve to integers,
game_date, matchup and match_method resolve to strings, every other
stat name resolves to nothing. -/
def stat_get (stats : StatsDict) (stat_type : String) : Option PyVal :=
  if stat_type = "PTS" then some (PyVal.int stats.PTS)
  else if stat_type = "REB" then some (PyVal.int stats.REB)
  else if stat_type = "AST" then some (PyVal.int stats.AST)
  else if stat_type = "FG3M" then some (PyVal.int stats.FG3M)
  else if stat_type = "game_date" then some (PyVal.str stats.game_date)
  else if stat_type = "matchup" then some (PyVal.str stats.matchup)
  else if stat_type = "match_method" then some (PyVal.str stats.match_method.data)
  else if stat_type = "days_old" then some (PyVal.int stats.days_old)
  else none

/-- The restriction of stat_get to the four numeric base-stat columns,
the domain the verification sheets use: the base names resolve to their
fields, anything else to nothing.  stat_get above is the full lookup of
the program; theorems over this restriction only ever assume a resolved
base-stat value. -/
def stat_lookup (stats : StatsDict) (stat_type : String) : Option Int :=
  if stat_type = "PTS" then some stats.PTS
  else if stat_type = "REB" then some stats.REB
  else if stat_type = "AST" then some stats.AST
  else if stat_type = "FG3M" then some stats.FG3M
  else none

/-- The per-row classification of update_excel_with_results on the
base-stat columns: no stats dict gives PENDING with Actual_Stat N/A; an
unresolvable stat name gives ERROR with Actual_Stat left unset;
otherwise strict greater-than against the line decides HIT or MISS.
update_row_full below is the same loop body over the full eight-key
lookup, including the stat names that hit metadata keys. -/
def update_row (stats : Option StatsDict) (stat_type : String) (line : ℚ) :
    RowResult :=
  match stats with
  | none => { actual_stat := CellVal.text "N/A", hit_miss := "PENDING", result := "⏳" }
  | some d =>
    match stat_lookup d stat_type with
    | none => { actual_stat := CellVal.empty, hit_miss := "ERROR", result := "" }
    | some v =>
      if (v : ℚ) > line then
        { actual_stat := CellVal.num v, hit_miss := "HIT", result := "✓" }
      else
        { actual_stat := CellVal.num v, hit_miss := "MISS", result := "✗" }

/-- Outcome of the full row classification: a classified row, or the
uncaught TypeError that Python raises when a string value from the dict
is compared with the numeric line (the row loop has no handler, so the
run aborts there). -/
inductive RowOutcome where
  | ok : RowResult → RowOutcome
  | typeError : RowOutcome
deriving DecidableEq

/-- The per-row classification of update_excel_with_results over the
full eight-key dict: None gives PENDING; a stat name outside the dict
gives ERROR with Actual_Stat left unset; an integer value (a base stat
or days_old) is compared with the line, strict greater-than deciding
HIT or MISS; a string value (game_date, matchup, match_method) raises
TypeError at the comparison. -/
def update_row_full (stats : Option StatsDict) (stat_type : String) (line : ℚ) :
    RowOutcome :=
  match stats with
  | none => RowOutcome.ok
      { actual_stat := CellVal.text "N/A", hit_miss := "PENDING", result := "⏳" }
  | some d =>
    match stat_get d stat_type with
    | none => RowOutcome.ok
        { actual_stat := CellVal.empty, hit_miss := "ERROR", result := "" }
    | some (PyVal.int v) =>
      if (v : ℚ) > line then
        RowOutcome.ok
          { actual_stat := CellVal.num v, hit_miss := "HIT", result := "✓" }
      else
        RowOutcome.ok
          { actual_stat := CellVal.num v, hit_miss := "MISS", result := "✗" }
    | some (PyVal.str _) => RowOutcome.typeError

/-- One input row of the prop table (Player, Stat, Line, optional
Opponent). -/
structure PropRow where
  player : PyStr
  stat : String
  line : ℚ
  opponent : Option PyStr
deriving DecidableEq

/-- The row loop of update_excel_with_results: every row is classified
in order from whatever the fetch returned for it; a row-local failure
(fetch returned None) never stops the loop. -/
def run_batch (fetch_stats : PropRow → Option StatsDict) (rows : List PropRow) :
    List RowResult :=
  rows.map (fun r => update_row (fetch_stats r) r.stat r.line)

end PropPulse

namespace PropPulse

/-!  Embedding of find_player_id from nba_stats_fetcher.py  -/

/-- One player object from GET /players. -/
structure ApiPlayer where
  id : Nat
  first_name : PyStr
  last_name : PyStr
deriving DecidableEq

/-- Outcome of one upstream request: a 200 body, a 401, or any other
status code. -/
inductive ApiResponse (α : Type) where
  | ok : α → ApiResponse α
  | unauthorized : ApiResponse α
  | otherStatus : Nat → ApiResponse α

/-- first_name plus last_name as find_player_id formats it. -/
def player_full_name (p : ApiPlayer) : PyStr :=
  p.first_name ++ (" ").data ++ p.last_name

/-- name.replace(., ).replace( , ).lower(): the normalized form used by
the close-match comparison. -/
def squash_name (s : PyStr) : PyStr :=
  lowerStr (replace_sub ((" ").data) [] (replace_sub ((".").data) [] s))

/-- The ordered list of search queries tried by find_player_id: the name
as given, the name with periods removed and double spaces collapsed, the
C.J. and J.J. nickname forms, and, for names of at least two tokens, the
last token alone. -/
def search_names (player_name : PyStr) : List PyStr :=
  let base :=
    [player_name,
     replace_sub (("  ").data) ((" ").data)
       (replace_sub ((".").data) [] player_name),
     replace_sub (("C.J.").data) (("CJ").data) player_name,
     replace_sub (("J.J.").data) (("JJ").data) player_name]
  let name_parts := split_ws player_name
  if name_parts.length ≥ 2 then base ++ [name_parts.getLastD []] else base

/-- The result scan of find_player_id for one response page: an exact
case-insensitive full-name match, else a close match with periods and
spaces stripped from both sides, first hit wins in response order. -/
def scan_players (player_name : PyStr) : List ApiPlayer → Option (Nat × PyStr)
  | [] => none
  | p :: rest =>
    let fn := player_full_name p
    if lowerStr fn = lowerStr player_name then some (p.id, fn)
    else if squash_name player_name = squash_name fn then some (p.id, fn)
    else scan_players player_name rest

/-- The query loop of find_player_id: a 401 returns None immediately, a
200 page is scanned for a match, the last-name-only query falls back to
the first result of a nonempty page, any other status (or an exception,
such as the empty split in the fallback test) moves on to the next
query; an exhausted query list returns None. -/
def find_player_go (env : PyStr → ApiResponse (List ApiPlayer))
    (player_name : PyStr) : List PyStr → Option (Nat × PyStr)
  | [] => none
  | q :: rest =>
    match env q with
    | ApiResponse.unauthorized => none
    | ApiResponse.otherStatus _ => find_player_go env player_name rest
    | ApiResponse.ok players =>
      match scan_players player_name players with
      | some r => some r
      | none =>
        match (split_ws player_name).getLast? with
        | some lastTok =>
          if q = lastTok then
            match players with
            | p :: _ => some (p.id, player_full_name p)
            | [] => find_player_go env player_name rest
          else find_player_go env player_name rest
        | none => find_player_go env player_name rest

/-- find_player_id from nba_stats_fetcher.py, over a response
environment mapping each search query to the upstream response. -/
def find_player_id (env : PyStr → ApiResponse (List ApiPlayer))
    (player_name : PyStr) : Option (Nat × PyStr) :=
  find_player_go env player_name (search_names player_name)

/-- fetch_player_game_stats composed from its pieces: an unresolved
player id (including the 401 case) yields None, otherwise the game
selection runs on the rows fetched for that player id, with days_of
the ambient date-difference function against the cutoff. -/
def fetch_stats_of (env : PyStr → ApiResponse (List ApiPlayer))
    (games_of : Nat → List GameStat) (details : Nat → Option GameDetail)
    (days_of : PyStr → Int) (r : PropRow) : Option StatsDict :=
  match find_player_id env r.player with
  | none => none
  | some (pid, _) => select_game (games_of pid) details days_of r.opponent

end PropPulse

namespace PropPulse

/-!  Specification-side definitions, written from the prose of the spec,
to be compared with the source-side definitions above.  -/

/-- The EV tier function exactly as the spec words it: five cases on
evPct with thresholds 15, 10, 5 and 0. -/
def ev_tier_spec (ev_pct : ℚ) : String × String :=
  if ev_pct ≥ 15 then ("🔥🔥🔥", "ELITE")
  else if ev_pct ≥ 10 then ("🔥🔥", "STRONG")
  else if ev_pct ≥ 5 then ("🔥", "GOOD")
  else if 0 < ev_pct then ("✅", "SLIGHT")
  else ("⚠️", "NEGATIVE")

/-- The confidence score exactly as the spec words it: the sum of the
probability signal, the projection-gap signal with gapPct 0 when the
line is 0, and the sample-size signal. -/
def confidence_spec_score (modelProb projection line : ℚ) (nGames : Int) : Int :=
  (if modelProb ≥ 0.60 then 3
   else if modelProb ≥ 0.55 then 2
   else if modelProb ≥ 0.52 then 1
   else 0)
  +
  (let gapPct : ℚ := if line = 0 then 0 else |projection - line| / line
   if gapPct ≥ 0.15 then 2
   else if gapPct ≥ 0.10 then 1
   else 0)
  +
  (if nGames ≥ 30 then 2
   else if nGames ≥ 20 then 1
   else 0)

end PropPulse

namespace PropPulse

/-!  Claim C3: EV tiering  -/

/-- C3.  For every rational evPct the source tier function realises
exactly the spec thresholds: it agrees with the five-case spec function
everywhere (the redundant branch at 20 collapses into the 15 case), and
each of the five tiers is hit exactly on its stated interval, so the
tiers form a total non-overlapping partition. -/
theorem c3_ev_tier_partition : ∀ ev : ℚ,
    get_ev_tier ev = ev_tier_spec ev ∧
    (get_ev_tier ev = ("🔥🔥🔥", "ELITE") ↔ 15 ≤ ev) ∧
    (get_ev_tier ev = ("🔥🔥", "STRONG") ↔ 10 ≤ ev ∧ ev < 15) ∧
    (get_ev_tier ev = ("🔥", "GOOD") ↔ 5 ≤ ev ∧ ev < 10) ∧
    (get_ev_tier ev = ("✅", "SLIGHT") ↔ 0 < ev ∧ ev < 5) ∧
    (get_ev_tier ev = ("⚠️", "NEGATIVE") ↔ ev ≤ 0) := by
  intro ev
  refine ⟨?_, ?_, ?_, ?_, ?_, ?_⟩
  · unfold get_ev_tier ev_tier_spec
    split_ifs <;> first | rfl | linarith
  all_goals
    unfold get_ev_tier
    split_ifs with h1 h2 h3 h4 h5 <;>
    constructor <;>
    intro hh <;>
    first
      | rfl
      | linarith
      | exact ⟨by linarith, by linarith⟩
      | exact absurd hh (by decide)

end PropPulse

namespace PropPulse

/-!  Claim C4: confidence score and buckets  -/

/-- C4.  The source confidence score is exactly the spec sum of the
three independent signals (probability, projection gap with gapPct 0 at
line 0, sample size, each first-match-wins); the bucket is determined by
the exact cutoffs 6, 4 and 2 on the score; and the stated scenario
modelProb 0.62, projection 30, line 25, nGames 35 scores 3+2+2 = 7 and
buckets to HIGH. -/
theorem c4_confidence_score_and_buckets :
    (∀ (mp proj line : ℚ) (n : Int),
      confidence_score mp proj line n = confidence_spec_score mp proj line n) ∧
    (∀ (mp proj line : ℚ) (n : Int),
      (get_confidence_level mp proj line n = ("🟢", "HIGH") ↔
        6 ≤ confidence_score mp proj line n) ∧
      (get_confidence_level mp proj line n = ("🟡", "MEDIUM") ↔
        4 ≤ confidence_score mp proj line n ∧ confidence_score mp proj line n < 6) ∧
      (get_confidence_level mp proj line n = ("🟠", "LOW") ↔
        2 ≤ confidence_score mp proj line n ∧ confidence_score mp proj line n < 4) ∧
      (get_confidence_level mp proj line n = ("🔴", "VERY LOW") ↔
        confidence_score mp proj line n < 2)) ∧
    confidence_score 0.62 30 25 35 = 7 ∧
    get_confidence_level 0.62 30 25 35 = ("🟢", "HIGH") := by
  refine ⟨?_, ?_, ?_, ?_⟩
  · intro mp proj line n
    unfold confidence_score confidence_spec_score
    rcases eq_or_ne line 0 with h0 | h0
    · simp [h0]
    · simp [h0]
  · intro mp proj line n
    unfold get_confidence_level
    dsimp only
    refine ⟨?_, ?_, ?_, ?_⟩ <;>
    split_ifs with h1 h2 h3 <;>
    constructor <;>
    intro hh <;>
    first
      | rfl
      | omega
      | exact ⟨by omega, by omega⟩
      | exact absurd hh (by decide)
  · norm_num [confidence_score]
  · norm_num [get_confidence_level, confidence_score]

end PropPulse

namespace PropPulse

/-!  Claim C5: monotonicity of the confidence score  -/

/-- C5 counterexample.  The confidence score is not monotone
non-decreasing in the projection: with modelProb 0, line 100 and
nGames 10 fixed, raising the projection from 80 to 95 drops the score
from 2 to 0, because the projection gap shrinks below both gap
thresholds. -/
theorem c5_counterexample :
    (80 : ℚ) ≤ 95 ∧
    confidence_score 0 80 100 10 = 2 ∧
    confidence_score 0 95 100 10 = 0 ∧
    ¬ confidence_score 0 80 100 10 ≤ confidence_score 0 95 100 10 := by
  norm_num [confidence_score]

/-- The probability signal chain is monotone in the probability. -/
theorem prob_chain_mono (a b : ℚ) (h : a ≤ b) :
    (if a ≥ (0.60 : ℚ) then (3 : Int) else if a ≥ 0.55 then 2
     else if a ≥ 0.52 then 1 else 0) ≤
    (if b ≥ (0.60 : ℚ) then (3 : Int) else if b ≥ 0.55 then 2
     else if b ≥ 0.52 then 1 else 0) := by
  split_ifs <;> first | omega | linarith

/-- The projection-gap signal chain is monotone in the gap percentage. -/
theorem gap_chain_mono (a b : ℚ) (h : a ≤ b) :
    (if a ≥ (0.15 : ℚ) then (2 : Int) else if a ≥ 0.10 then 1 else 0) ≤
    (if b ≥ (0.15 : ℚ) then (2 : Int) else if b ≥ 0.10 then 1 else 0) := by
  split_ifs <;> first | omega | linarith

/-- The sample-size signal chain is monotone in the game count. -/
theorem sample_chain_mono (a b : Int) (h : a ≤ b) :
    (if a ≥ 30 then (2 : Int) else if a ≥ 20 then 1 else 0) ≤
    (if b ≥ 30 then (2 : Int) else if b ≥ 20 then 1 else 0) := by
  split_ifs <;> omega

/-- C5 as amended.  The confidence score is monotone non-decreasing in
modelProb and in nGames with the other inputs fixed, and, for a positive
line, in the absolute projection gap from the line; it is not monotone
in the projection itself (see the counterexample). -/
theorem c5_amended_monotonicity :
    (∀ (mp mp' proj line : ℚ) (n : Int), mp ≤ mp' →
      confidence_score mp proj line n ≤ confidence_score mp' proj line n) ∧
    (∀ (mp proj line : ℚ) (n n' : Int), n ≤ n' →
      confidence_score mp proj line n ≤ confidence_score mp proj line n') ∧
    (∀ (mp proj proj' line : ℚ) (n : Int), 0 < line →
      |proj - line| ≤ |proj' - line| →
      confidence_score mp proj line n ≤ confidence_score mp proj' line n) := by
  refine ⟨?_, ?_, ?_⟩
  · intro mp mp' proj line n h
    unfold confidence_score
    exact add_le_add (add_le_add (prob_chain_mono mp mp' h) le_rfl) le_rfl
  · intro mp proj line n n' h
    unfold confidence_score
    exact add_le_add le_rfl (sample_chain_mono n n' h)
  · intro mp proj proj' line n hline h
    unfold confidence_score
    have hne : line ≠ 0 := ne_of_gt hline
    have hdiv : |proj - line| / line ≤ |proj' - line| / line :=
      (div_le_div_iff_of_pos_right hline).mpr h
    refine add_le_add (add_le_add le_rfl ?_) le_rfl
    dsimp only
    simp only [if_pos hne]
    exact gap_chain_mono _ _ hdiv

/-- C5 amended witness: the three monotonicity parts applied at concrete
inputs. -/
theorem c5_amended_monotonicity_witness :
    ((0 : ℚ) ≤ 1 ∧
      confidence_score 0 30 25 10 ≤ confidence_score 1 30 25 10) ∧
    ((10 : Int) ≤ 40 ∧
      confidence_score 1 30 25 10 ≤ confidence_score 1 30 25 40) ∧
    ((0 : ℚ) < 25 ∧ |(26 : ℚ) - 25| ≤ |(26 : ℚ) - 25| ∧
      confidence_score 1 26 25 10 ≤ confidence_score 1 26 25 10) :=
  ⟨⟨by decide, c5_amended_monotonicity.1 0 1 30 25 10 (by decide)⟩,
   ⟨by decide, c5_amended_monotonicity.2.1 1 30 25 10 40 (by decide)⟩,
   ⟨by decide, le_refl _,
    c5_amended_monotonicity.2.2 1 26 26 25 10 (by decide) (le_refl _)⟩⟩

end PropPulse

namespace PropPulse

/-!  Claim C2: HIT/MISS classification is strict greater-than  -/

/-- C2.  Whenever a stats dict was returned and the stat name resolved
to a value v, the row is classified HIT with symbol check mark exactly
when v is strictly greater than the line, and MISS with symbol cross
otherwise; in particular a value equal to the line is MISS. -/
theorem c2_strict_greater_than : ∀ (d : StatsDict) (s : String) (line : ℚ) (v : Int),
    stat_lookup d s = some v →
    (line < (v : ℚ) →
      update_row (some d) s line =
        { actual_stat := CellVal.num v, hit_miss := "HIT", result := "✓" }) ∧
    ((v : ℚ) ≤ line →
      update_row (some d) s line =
        { actual_stat := CellVal.num v, hit_miss := "MISS", result := "✗" }) ∧
    ((v : ℚ) = line →
      (update_row (some d) s line).hit_miss = "MISS") := by
  intro d s line v hv
  refine ⟨fun h => ?_, fun h => ?_, fun h => ?_⟩
  · simp [update_row, hv, h]
  · simp [update_row, hv, not_lt.mpr h]
  · simp [update_row, hv, not_lt.mpr (le_of_eq h)]

/-- C2 witness: a PTS value of 30 against a line of 25 is a HIT, and a
value of 25 against the same line is a MISS. -/
theorem c2_strict_greater_than_witness :
    (stat_lookup
        { PTS := 30, REB := 10, AST := 5, FG3M := 2, game_date := [],
          matchup := [], match_method := "BallDontLie API", days_old := 1 } "PTS" = some 30 ∧
      (25 : ℚ) < ((30 : Int) : ℚ) ∧
      update_row
        (some { PTS := 30, REB := 10, AST := 5, FG3M := 2, game_date := [],
                matchup := [], match_method := "BallDontLie API", days_old := 1 }) "PTS" 25 =
        { actual_stat := CellVal.num 30, hit_miss := "HIT", result := "✓" }) ∧
    (((25 : Int) : ℚ) = 25 ∧
      (update_row
        (some { PTS := 25, REB := 10, AST := 5, FG3M := 2, game_date := [],
                matchup := [], match_method := "BallDontLie API", days_old := 1 }) "PTS" 25).hit_miss
        = "MISS") :=
  ⟨⟨rfl, by decide,
    (c2_strict_greater_than
      { PTS := 30, REB := 10, AST := 5, FG3M := 2, game_date := [],
        matchup := [], match_method := "BallDontLie API", days_old := 1 }
      "PTS" 25 30 rfl).1 (by decide)⟩,
   ⟨by decide,
    (c2_strict_greater_than
      { PTS := 25, REB := 10, AST := 5, FG3M := 2, game_date := [],
        matchup := [], match_method := "BallDontLie API", days_old := 1 }
      "PTS" 25 25 rfl).2.2 (by decide)⟩⟩

end PropPulse

namespace PropPulse

/-!  Claim C1: stat-name resolution  -/

/-- C1 counterexample.  Composite stat names are not summed: on a stats
dict with REB 10 and AST 5, the stat name REB+AST is absent from the
returned dict, so it does not resolve to 15 and a HIT/MISS comparison;
the row gets ERROR with the actual value left unset. -/
theorem c1_counterexample :
    update_row_full (some dFix) "REB+AST" 12 =
      RowOutcome.ok
        { actual_stat := CellVal.empty, hit_miss := "ERROR", result := "" } ∧
    stat_get dFix "REB+AST" = none ∧
    update_row_full (some dFix) "REB+AST" 12 ≠
      RowOutcome.ok
        { actual_stat := CellVal.num 15, hit_miss := "HIT", result := "✓" } := by
  refine ⟨by decide, by decide, by decide⟩

/-- A stat name resolving to an integer value is always classified HIT
or MISS by the full row update, recording that number. -/
theorem update_row_full_int (d : StatsDict) (s : String) (line : ℚ) (v : Int)
    (hv : stat_get d s = some (PyVal.int v)) :
    update_row_full (some d) s line =
      RowOutcome.ok
        { actual_stat := CellVal.num v, hit_miss := "HIT", result := "✓" } ∨
    update_row_full (some d) s line =
      RowOutcome.ok
        { actual_stat := CellVal.num v, hit_miss := "MISS", result := "✗" } := by
  unfold update_row_full
  dsimp only
  rw [hv]
  dsimp only
  split_ifs
  · left
    rfl
  · right
    rfl

/-- C1 as amended.  The four base stat names map directly to their
box-score field and always classify HIT or MISS.  Composite stat names
such as REB+AST are not summed: like every stat name outside the eight
dict keys they yield ERROR with the actual value left unset.  Stat
names that hit the metadata keys do not yield ERROR either: days_old
resolves to an integer that is classified HIT or MISS, while game_date,
matchup and match_method resolve to strings whose comparison with the
line raises an uncaught TypeError. -/
theorem c1_amended_stat_resolution : ∀ (d : StatsDict) (s : String) (line : ℚ),
    (stat_get d "PTS" = some (PyVal.int d.PTS) ∧
     stat_get d "REB" = some (PyVal.int d.REB) ∧
     stat_get d "AST" = some (PyVal.int d.AST) ∧
     stat_get d "FG3M" = some (PyVal.int d.FG3M)) ∧
    ((s = "PTS" ∨ s = "REB" ∨ s = "AST" ∨ s = "FG3M") →
      ∃ v : Int, stat_get d s = some (PyVal.int v) ∧
        (update_row_full (some d) s line =
          RowOutcome.ok
            { actual_stat := CellVal.num v, hit_miss := "HIT", result := "✓" } ∨
         update_row_full (some d) s line =
          RowOutcome.ok
            { actual_stat := CellVal.num v, hit_miss := "MISS", result := "✗" })) ∧
    (¬ (s = "PTS" ∨ s = "REB" ∨ s = "AST" ∨ s = "FG3M" ∨ s = "game_date" ∨
        s = "matchup" ∨ s = "match_method" ∨ s = "days_old") →
      update_row_full (some d) s line =
        RowOutcome.ok
          { actual_stat := CellVal.empty, hit_miss := "ERROR", result := "" }) ∧
    (update_row_full (some d) "days_old" line =
      RowOutcome.ok
        { actual_stat := CellVal.num d.days_old, hit_miss := "HIT", result := "✓" } ∨
     update_row_full (some d) "days_old" line =
      RowOutcome.ok
        { actual_stat := CellVal.num d.days_old, hit_miss := "MISS", result := "✗" }) ∧
    (update_row_full (some d) "game_date" line = RowOutcome.typeError ∧
     update_row_full (some d) "matchup" line = RowOutcome.typeError ∧
     update_row_full (some d) "match_method" line = RowOutcome.typeError) := by
  intro d s line
  refine ⟨⟨rfl, rfl, rfl, rfl⟩, fun h => ?_, fun h => ?_,
    update_row_full_int d "days_old" line d.days_old rfl, rfl, rfl, rfl⟩
  · rcases h with h | h | h | h <;> subst h
    · exact ⟨d.PTS, rfl, update_row_full_int d "PTS" line d.PTS rfl⟩
    · exact ⟨d.REB, rfl, update_row_full_int d "REB" line d.REB rfl⟩
    · exact ⟨d.AST, rfl, update_row_full_int d "AST" line d.AST rfl⟩
    · exact ⟨d.FG3M, rfl, update_row_full_int d "FG3M" line d.FG3M rfl⟩
  · push_neg at h
    obtain ⟨h1, h2, h3, h4, h5, h6, h7, h8⟩ := h
    simp [update_row_full, stat_get, h1, h2, h3, h4, h5, h6, h7, h8]

/-- C1 amended witness: on a concrete dict, REB resolves directly and
classifies, the composite PRA yields the ERROR row, days_old classifies
as an integer, and matchup raises TypeError. -/
theorem c1_amended_stat_resolution_witness :
    (∃ v : Int, stat_get dFix "REB" = some (PyVal.int v) ∧
      (update_row_full (some dFix) "REB" 7 =
        RowOutcome.ok
          { actual_stat := CellVal.num v, hit_miss := "HIT", result := "✓" } ∨
       update_row_full (some dFix) "REB" 7 =
        RowOutcome.ok
          { actual_stat := CellVal.num v, hit_miss := "MISS", result := "✗" })) ∧
    update_row_full (some dFix) "PRA" 7 =
      RowOutcome.ok
        { actual_stat := CellVal.empty, hit_miss := "ERROR", result := "" } ∧
    (update_row_full (some dFix) "days_old" 7 =
      RowOutcome.ok
        { actual_stat := CellVal.num 1, hit_miss := "HIT", result := "✓" } ∨
     update_row_full (some dFix) "days_old" 7 =
      RowOutcome.ok
        { actual_stat := CellVal.num 1, hit_miss := "MISS", result := "✗" }) ∧
    update_row_full (some dFix) "matchup" 7 = RowOutcome.typeError :=
  ⟨(c1_amended_stat_resolution dFix "REB" 7).2.1 (Or.inr (Or.inl rfl)),
   (c1_amended_stat_resolution dFix "PRA" 7).2.2.1 (by decide),
   (c1_amended_stat_resolution dFix "PRA" 7).2.2.2.1,
   (c1_amended_stat_resolution dFix "PRA" 7).2.2.2.2.2.1⟩

end PropPulse

namespace PropPulse

/-!  Claim C10: the keys of the returned stat dict  -/

/-- C10 counterexample.  The stat dictionary returned for a matched game
does not contain exactly the four base keys: days_old also resolves
through stats.get, to a defined integer that is then HIT/MISS-classified
against the line — a fifth resolvable key. -/
theorem c10_counterexample :
    stat_get (mk_stats sampleGame (("2025-11-10").data) [] "BallDontLie API" 1)
        "days_old" = some (PyVal.int 1) ∧
    ¬ ("days_old" = "PTS" ∨ "days_old" = "REB" ∨ "days_old" = "AST" ∨
       "days_old" = "FG3M") ∧
    update_row_full
        (some (mk_stats sampleGame (("2025-11-10").data) [] "BallDontLie API" 1))
        "days_old" 0 =
      RowOutcome.ok
        { actual_stat := CellVal.num 1, hit_miss := "HIT", result := "✓" } := by
  refine ⟨by decide, by decide, by decide⟩

/-- C10 as amended.  The returned stat dict resolves a lookup exactly on
its eight keys — the four base stats plus game_date, matchup,
match_method and days_old.  Each base field is always a defined number:
a missing or null upstream field is coerced to 0, so a null upstream
base field produces the numeric actual value 0 and a HIT/MISS
classification, never an unset value. -/
theorem c10_amended_eight_keys :
    ∀ (gs : GameStat) (gd mu : PyStr) (mm : String) (dOld : Int)
      (s : String) (line : ℚ),
    ((stat_get (mk_stats gs gd mu mm dOld) s).isSome ↔
      s = "PTS" ∨ s = "REB" ∨ s = "AST" ∨ s = "FG3M" ∨ s = "game_date" ∨
      s = "matchup" ∨ s = "match_method" ∨ s = "days_old") ∧
    (gs.pts = none → (mk_stats gs gd mu mm dOld).PTS = 0) ∧
    (gs.reb = none → (mk_stats gs gd mu mm dOld).REB = 0) ∧
    (gs.ast = none → (mk_stats gs gd mu mm dOld).AST = 0) ∧
    (gs.fg3m = none → (mk_stats gs gd mu mm dOld).FG3M = 0) ∧
    ((s = "PTS" ∨ s = "REB" ∨ s = "AST" ∨ s = "FG3M") →
      ∃ v : Int,
        stat_get (mk_stats gs gd mu mm dOld) s = some (PyVal.int v) ∧
        (update_row_full (some (mk_stats gs gd mu mm dOld)) s line =
          RowOutcome.ok
            { actual_stat := CellVal.num v, hit_miss := "HIT", result := "✓" } ∨
         update_row_full (some (mk_stats gs gd mu mm dOld)) s line =
          RowOutcome.ok
            { actual_stat := CellVal.num v, hit_miss := "MISS", result := "✗" })) := by
  intro gs gd mu mm dOld s line
  refine ⟨?_, ?_, ?_, ?_, ?_, ?_⟩
  · unfold stat_get
    split_ifs with h1 h2 h3 h4 h5 h6 h7 h8 <;> simp_all
  · intro h
    simp [mk_stats, h, orZero]
  · intro h
    simp [mk_stats, h, orZero]
  · intro h
    simp [mk_stats, h, orZero]
  · intro h
    simp [mk_stats, h, orZero]
  · intro h
    rcases h with h | h | h | h <;> subst h
    · exact ⟨orZero gs.pts, rfl, update_row_full_int _ "PTS" line _ rfl⟩
    · exact ⟨orZero gs.reb, rfl, update_row_full_int _ "REB" line _ rfl⟩
    · exact ⟨orZero gs.ast, rfl, update_row_full_int _ "AST" line _ rfl⟩
    · exact ⟨orZero gs.fg3m, rfl, update_row_full_int _ "FG3M" line _ rfl⟩

/-- C10 amended witness: a row whose upstream rebound field is null
still resolves REB to the number 0 and classifies against a positive
line, and days_old is among the resolvable keys. -/
theorem c10_amended_eight_keys_witness :
    (stat_get (mk_stats nullRebGame [] [] "BallDontLie API" 1)
        "days_old").isSome ∧
    (mk_stats nullRebGame [] [] "BallDontLie API" 1).REB = 0 ∧
    (∃ v : Int,
      stat_get (mk_stats nullRebGame [] [] "BallDontLie API" 1) "REB" =
        some (PyVal.int v) ∧
      (update_row_full (some (mk_stats nullRebGame [] [] "BallDontLie API" 1))
          "REB" 3 =
        RowOutcome.ok
          { actual_stat := CellVal.num v, hit_miss := "HIT", result := "✓" } ∨
       update_row_full (some (mk_stats nullRebGame [] [] "BallDontLie API" 1))
          "REB" 3 =
        RowOutcome.ok
          { actual_stat := CellVal.num v, hit_miss := "MISS", result := "✗" })) :=
  ⟨((c10_amended_eight_keys nullRebGame [] [] "BallDontLie API" 1
      "days_old" 3).1).mpr (by decide),
   (c10_amended_eight_keys nullRebGame [] [] "BallDontLie API" 1
      "REB" 3).2.2.1 rfl,
   (c10_amended_eight_keys nullRebGame [] [] "BallDontLie API" 1
      "REB" 3).2.2.2.2.2 (Or.inr (Or.inl rfl))⟩

end PropPulse

namespace PropPulse

/-!  Claim C6: an unmatched opponent never falls back  -/

/-- If no row of the window matches, the opponent loop returns None. -/
theorem find_matching_none (details : Nat → Option GameDetail)
    (days_of : PyStr → Int) (opp : Option PyStr) :
    ∀ games : List GameStat,
      (∀ gs ∈ games, row_matches details opp gs = false) →
      find_matching details days_of opp games = none := by
  intro games h
  induction games with
  | nil => rfl
  | cons gs rest ih =>
    have hg := h gs (List.mem_cons_self gs rest)
    have hrest : ∀ g ∈ rest, row_matches details opp g = false :=
      fun g hm => h g (List.mem_cons_of_mem gs hm)
    unfold row_matches at hg
    unfold find_matching
    cases hd : details gs.game_id with
    | none =>
      dsimp only
      exact ih hrest
    | some fg =>
      rw [hd] at hg
      dsimp only at hg ⊢
      cases hm : match_opponent fg.home_team fg.visitor_team opp with
      | none =>
        simp only [hm]
        exact ih hrest
      | some r =>
        rw [hm] at hg
        simp at hg

/-- C6.  With a nonempty opponent constraint, if no row in the window
matches the normalized opponent then game matching returns None — it
never falls back to the most recent game — and the batch row is marked
PENDING with the hourglass symbol and actual value N/A, exactly as a
window with no games at all is. -/
theorem c6_no_match_no_fallback :
    ∀ (games : List GameStat) (details : Nat → Option GameDetail)
      (days_of : PyStr → Int) (o : PyStr) (stat : String) (line : ℚ),
    o.isEmpty = false →
    (∀ gs ∈ games, row_matches details (normalize_opponent (some o)) gs = false) →
    select_game games details days_of (some o) = none ∧
    update_row (select_game games details days_of (some o)) stat line =
      { actual_stat := CellVal.text "N/A", hit_miss := "PENDING", result := "⏳" } ∧
    select_game [] details days_of (some o) = none ∧
    update_row (select_game [] details days_of (some o)) stat line =
      { actual_stat := CellVal.text "N/A", hit_miss := "PENDING", result := "⏳" } := by
  intro games details days_of o stat line ho h
  have hsel : select_game games details days_of (some o) = none := by
    cases games with
    | nil => rfl
    | cons g rest =>
      unfold select_game
      simp only [List.isEmpty_cons, ho]
      simp only [Bool.false_eq_true, if_false, not_false_eq_true, if_true]
      exact find_matching_none details days_of _ _ h
  refine ⟨hsel, by rw [hsel]; rfl, rfl, rfl⟩

/-- C6 witness: a one-game window with Golden State hosting Boston, with
opponent LAL required; nothing matches and the row is PENDING. -/
theorem c6_no_match_no_fallback_witness :
    (("LAL").data.isEmpty = false ∧
      (∀ gs ∈ [sampleGame],
        row_matches sampleDetails
          (normalize_opponent (some (("LAL").data))) gs = false)) ∧
    select_game [sampleGame] sampleDetails (fun _ => 1) (some (("LAL").data)) =
      none ∧
    update_row
        (select_game [sampleGame] sampleDetails (fun _ => 1)
          (some (("LAL").data)))
        "PTS" 25 =
      { actual_stat := CellVal.text "N/A", hit_miss := "PENDING", result := "⏳" } := by
  refine ⟨⟨rfl, by decide⟩, ?_, ?_⟩
  · exact (c6_no_match_no_fallback [sampleGame] sampleDetails (fun _ => 1)
      (("LAL").data) "PTS" 25 rfl (by decide)).1
  · exact (c6_no_match_no_fallback [sampleGame] sampleDetails (fun _ => 1)
      (("LAL").data) "PTS" 25 rfl (by decide)).2.1

end PropPulse

namespace PropPulse

/-!  Claim C7: what a 401 during player search actually does  -/

/-- The first query tried by find_player_id is always the name exactly
as given. -/
theorem search_names_head (name : PyStr) :
    ∃ rest, search_names name = name :: rest := by
  unfold search_names
  dsimp only
  split_ifs <;> exact ⟨_, rfl⟩

/-- C7 counterexample.  A 401 from the player search produces exactly
the same outcome as a search that finds nobody — None — so the
authentication failure is not reported distinctly from PlayerNotFound;
and the batch is not stopped: both rows of a two-row batch are still
processed and marked PENDING. -/
theorem c7_counterexample :
    find_player_id (fun _ => ApiResponse.unauthorized) (("LeBron James").data) =
      find_player_id (fun _ => ApiResponse.ok []) (("LeBron James").data) ∧
    find_player_id (fun _ => ApiResponse.unauthorized) (("LeBron James").data) =
      none ∧
    run_batch
      (fun r => fetch_stats_of (fun _ => ApiResponse.unauthorized)
        (fun _ => []) (fun _ => none) (fun _ => 0) r)
      [{ player := ("LeBron James").data, stat := "PTS", line := 25,
         opponent := none },
       { player := ("Stephen Curry").data, stat := "AST", line := 5,
         opponent := none }] =
      [{ actual_stat := CellVal.text "N/A", hit_miss := "PENDING", result := "⏳" },
       { actual_stat := CellVal.text "N/A", hit_miss := "PENDING", result := "⏳" }] := by
  refine ⟨by decide, by decide, by decide⟩

/-- C7 as amended.  A 401 makes find_player_id return immediately, with
no further name strategies tried, but the return value is the same None
as PlayerNotFound; the batch itself is never stopped: the row loop
classifies every input row. -/
theorem c7_amended_auth_not_distinct :
    (∀ (env : PyStr → ApiResponse (List ApiPlayer)) (name : PyStr),
      env name = ApiResponse.unauthorized → find_player_id env name = none) ∧
    (∀ (fetch : PropRow → Option StatsDict) (rows : List PropRow),
      (run_batch fetch rows).length = rows.length) := by
  constructor
  · intro env name h
    obtain ⟨rest, hr⟩ := search_names_head name
    unfold find_player_id
    rw [hr]
    unfold find_player_go
    rw [h]
  · intro fetch rows
    unfold run_batch
    exact List.length_map rows _

/-- C7 amended witness: the general theorem applied to an environment
answering 401, and to a concrete two-row batch. -/
theorem c7_amended_auth_not_distinct_witness :
    ((fun _ : PyStr => (ApiResponse.unauthorized : ApiResponse (List ApiPlayer)))
        (("LeBron James").data) = ApiResponse.unauthorized ∧
      find_player_id (fun _ => ApiResponse.unauthorized)
        (("LeBron James").data) = none) ∧
    (run_batch (fun _ => none)
      [{ player := ("LeBron James").data, stat := "PTS", line := 25,
         opponent := none },
       { player := ("Stephen Curry").data, stat := "AST", line := 5,
         opponent := none }]).length = 2 :=
  ⟨⟨rfl,
    c7_amended_auth_not_distinct.1 (fun _ => ApiResponse.unauthorized)
      (("LeBron James").data) rfl⟩,
   c7_amended_auth_not_distinct.2 (fun _ => none)
     [{ player := ("LeBron James").data, stat := "PTS", line := 25,
        opponent := none },
      { player := ("Stephen Curry").data, stat := "AST", line := 5,
        opponent := none }]⟩

end PropPulse

namespace PropPulse

/-!  Claim C8: idempotence of opponent normalization  -/

/-- Converting a valid code point back from Char.ofNat recovers it. -/
theorem char_toNat_ofNat_valid (n : ℕ) (hv : n.isValidChar) :
    (Char.ofNat n).toNat = n := by
  unfold Char.ofNat
  rw [dif_pos hv]
  rfl

/-- Characters with equal code points are equal. -/
theorem char_eq_of_toNat_eq {a b : Char} (h : a.toNat = b.toNat) : a = b :=
  Char.ext (UInt32.ext h)

/-- The code point of Char.toUpper: lowercase ASCII letters move down by
32, everything else is unchanged. -/
theorem toUpper_toNat (c : Char) :
    (Char.toUpper c).toNat =
      if 97 ≤ c.toNat ∧ c.toNat ≤ 122 then c.toNat - 32 else c.toNat := by
  unfold Char.toUpper
  dsimp only
  split_ifs with h
  · apply char_toNat_ofNat_valid
    unfold Nat.isValidChar
    left
    omega
  · rfl

/-- Uppercasing a character twice is the same as once. -/
theorem toUpper_idem (c : Char) :
    Char.toUpper (Char.toUpper c) = Char.toUpper c := by
  apply char_eq_of_toNat_eq
  rw [toUpper_toNat, toUpper_toNat]
  split_ifs <;> omega

/-- Uppercasing never creates or destroys whitespace. -/
theorem pySpace_toUpper (c : Char) : pySpace (Char.toUpper c) = pySpace c := by
  unfold pySpace
  rw [toUpper_toNat]
  split_ifs with h
  · simp only [decide_eq_decide]
    omega
  · rfl

/-- stripLeft is idempotent. -/
theorem stripLeft_idem (l : PyStr) : stripLeft (stripLeft l) = stripLeft l :=
  List.dropWhile_idempotent pySpace l

/-- stripRight is idempotent. -/
theorem stripRight_idem (l : PyStr) : stripRight (stripRight l) = stripRight l := by
  simp [stripRight, List.dropWhile_idempotent]

/-- stripRight returns a prefix of its argument. -/
theorem stripRight_isPre (l : PyStr) : stripRight l <+: l := by
  have h := List.dropWhile_suffix (l := l.reverse) pySpace
  have h2 : (List.dropWhile pySpace l.reverse).reverse.reverse <:+ l.reverse := by
    simpa using h
  exact List.reverse_suffix.mp h2

/-- The head of stripLeft is never whitespace. -/
theorem stripLeft_head (l : PyStr) (c : Char) (t : PyStr)
    (h : stripLeft l = c :: t) : pySpace c = false := by
  have w : List.dropWhile pySpace l ≠ [] := by
    rw [show List.dropWhile pySpace l = c :: t from h]
    simp
  have hh := List.head_dropWhile_not pySpace l w
  have : (List.dropWhile pySpace l).head w = c := by
    simp only [show List.dropWhile pySpace l = c :: t from h]
    rfl
  rwa [this] at hh

/-- On a list whose head is not whitespace, stripLeft does nothing,
even after stripRight. -/
theorem stripLeft_stripRight_fix (c : Char) (t : PyStr)
    (hc : pySpace c = false) :
    stripLeft (stripRight (c :: t)) = stripRight (c :: t) := by
  rcases hr : stripRight (c :: t) with _ | ⟨x, xs⟩
  · rfl
  · have hp : x :: xs <+: c :: t := hr ▸ stripRight_isPre (c :: t)
    obtain ⟨r, hx⟩ := hp
    have hxc : x = c := ((List.cons.injEq x (xs ++ r) c t).mp hx).1
    subst hxc
    simp [stripLeft, List.dropWhile_cons, hc]

/-- pyStrip is idempotent. -/
theorem pyStrip_idem (l : PyStr) : pyStrip (pyStrip l) = pyStrip l := by
  unfold pyStrip
  rcases hm : stripLeft l with _ | ⟨c, t⟩
  · rfl
  · have hc := stripLeft_head l c t hm
    rw [stripLeft_stripRight_fix c t hc, stripRight_idem]

/-- stripLeft commutes with uppercasing. -/
theorem stripLeft_upper (l : PyStr) :
    stripLeft (upperStr l) = upperStr (stripLeft l) := by
  have hpf : (pySpace ∘ Char.toUpper) = pySpace := funext pySpace_toUpper
  simp [stripLeft, upperStr, List.dropWhile_map, hpf]

/-- stripRight commutes with uppercasing. -/
theorem stripRight_upper (l : PyStr) :
    stripRight (upperStr l) = upperStr (stripRight l) := by
  have hpf : (pySpace ∘ Char.toUpper) = pySpace := funext pySpace_toUpper
  unfold stripRight upperStr
  simp only [← List.map_reverse, List.dropWhile_map, hpf]

/-- pyStrip commutes with uppercasing. -/
theorem pyStrip_upper (l : PyStr) :
    pyStrip (upperStr l) = upperStr (pyStrip l) := by
  simp [pyStrip, stripLeft_upper, stripRight_upper]

/-- Uppercasing a string twice is the same as once. -/
theorem upperStr_idem (l : PyStr) : upperStr (upperStr l) = upperStr l := by
  have : (Char.toUpper ∘ Char.toUpper) = Char.toUpper := funext toUpper_idem
  simp [upperStr, List.map_map, this]

/-- strip-of-upper is a fixed point of itself. -/
theorem pyStrip_upper_fix (x : PyStr) :
    pyStrip (upperStr (pyStrip (upperStr x))) = pyStrip (upperStr x) := by
  rw [← pyStrip_upper (upperStr x), upperStr_idem]
  exact pyStrip_idem _

/-- A string containing a non-whitespace character does not strip to
nothing. -/
theorem pyStrip_ne_nil (l : PyStr) (c : Char) (hc : c ∈ l)
    (hns : pySpace c = false) : pyStrip l ≠ [] := by
  have hL : stripLeft l ≠ [] := by
    intro hnil
    have := List.dropWhile_eq_nil_iff.mp hnil c hc
    rw [hns] at this
    exact Bool.false_ne_true this
  rcases hm : stripLeft l with _ | ⟨d, t⟩
  · exact absurd hm hL
  · have hd := stripLeft_head l d t hm
    unfold pyStrip
    rw [hm]
    intro hnil
    unfold stripRight at hnil
    have : List.dropWhile pySpace (d :: t).reverse = [] := by
      have := congrArg List.reverse hnil
      simpa using this
    have hdmem : d ∈ (d :: t).reverse := by simp
    have := List.dropWhile_eq_nil_iff.mp this d hdmem
    rw [hd] at this
    exact Bool.false_ne_true this

/-- A truthy argument to normalize_opponent produces the mapped,
stripped, uppercased string. -/
theorem normalize_some (x : PyStr) (hx : x.isEmpty = false) :
    normalize_opponent (some x) = some (map_team_abbr (pyStrip (upperStr x))) := by
  unfold normalize_opponent
  simp only [hx, Bool.false_eq_true, if_false]

/-- C8 counterexample.  Normalization is not idempotent on every string:
a single space is truthy, so it normalizes to the empty string, but the
empty string is falsy, so normalizing again gives None instead. -/
theorem c8_counterexample :
    normalize_opponent (normalize_opponent (some ((" ").data))) ≠
      normalize_opponent (some ((" ").data)) ∧
    normalize_opponent (some ((" ").data)) = some [] ∧
    normalize_opponent (some []) = none := by
  refine ⟨by decide, by decide, rfl⟩

/-- C8 as amended.  Normalization is idempotent on the empty string and
on every string containing at least one non-whitespace character; only
the nonempty all-whitespace strings (which normalize to the falsy empty
string) break idempotence. -/
theorem c8_amended_idempotent :
    ∀ x : PyStr, (x = [] ∨ ∃ c ∈ x, pySpace c = false) →
      normalize_opponent (normalize_opponent (some x)) =
        normalize_opponent (some x) := by
  intro x hx
  rcases hx with rfl | ⟨c, hc, hns⟩
  · rfl
  · have hxne : x.isEmpty = false := by
      cases x
      · cases hc
      · rfl
    have hstrip : pyStrip (upperStr x) ≠ [] := by
      apply pyStrip_ne_nil (upperStr x) (Char.toUpper c)
      · exact List.mem_map_of_mem Char.toUpper hc
      · rw [pySpace_toUpper]
        exact hns
    rw [normalize_some x hxne]
    by_cases h1 : pyStrip (upperStr x) = ("NO").data
    · rw [show map_team_abbr (pyStrip (upperStr x)) = ("NOP").data by
        simp [map_team_abbr, h1]]
      decide
    · by_cases h2 : pyStrip (upperStr x) = ("NY").data
      · rw [show map_team_abbr (pyStrip (upperStr x)) = ("NYK").data by
          simp [map_team_abbr, h1, h2]]
        decide
      · by_cases h3 : pyStrip (upperStr x) = ("SA").data
        · rw [show map_team_abbr (pyStrip (upperStr x)) = ("SAS").data by
            simp [map_team_abbr, h1, h2, h3]]
          decide
        · have hmap : map_team_abbr (pyStrip (upperStr x)) = pyStrip (upperStr x) := by
            simp [map_team_abbr, h1, h2, h3]
          rw [hmap]
          have hts : (pyStrip (upperStr x)).isEmpty = false := by
            rcases hp : pyStrip (upperStr x) with _ | ⟨d, t⟩
            · exact absurd hp hstrip
            · rfl
          rw [normalize_some _ hts, pyStrip_upper_fix, hmap]

/-- C8 amended witness: idempotence at the ordinary abbreviation LAL and
at the mapped, unstripped form of NO. -/
theorem c8_amended_idempotent_witness :
    ((("LAL").data = [] ∨ ∃ c ∈ (("LAL").data), pySpace c = false) ∧
      normalize_opponent (normalize_opponent (some (("LAL").data))) =
        normalize_opponent (some (("LAL").data))) ∧
    (((" no ").data = [] ∨ ∃ c ∈ ((" no ").data), pySpace c = false) ∧
      normalize_opponent (normalize_opponent (some ((" no ").data))) =
        normalize_opponent (some ((" no ").data))) :=
  ⟨⟨by decide, c8_amended_idempotent (("LAL").data) (by decide)⟩,
   ⟨by decide, c8_amended_idempotent ((" no ").data) (by decide)⟩⟩

end PropPulse

namespace PropPulse

/-!  Claim C9: the confidence sort orders by bucket label string  -/

/-- lexLe is reflexive. -/
theorem lexLe_refl (s : PyStr) : lexLe s s = true := by
  induction s with
  | nil => rfl
  | cons a t ih => simp [lexLe, Nat.lt_irrefl, ih]

/-- lexLe is total. -/
theorem lexLe_total (s t : PyStr) : lexLe s t = true ∨ lexLe t s = true := by
  induction s generalizing t with
  | nil => left; rfl
  | cons a s ih =>
    cases t with
    | nil => right; rfl
    | cons b t =>
      unfold lexLe
      rcases Nat.lt_trichotomy a.toNat b.toNat with h | h | h
      · left; simp [h]
      · simp [h, Nat.lt_irrefl]
        exact ih t
      · right; simp [h]

/-- lexLe is transitive. -/
theorem lexLe_trans (s t u : PyStr) (h1 : lexLe s t = true)
    (h2 : lexLe t u = true) : lexLe s u = true := by
  induction s generalizing t u with
  | nil => rfl
  | cons a s ih =>
    cases t with
    | nil => simp [lexLe] at h1
    | cons b t =>
      cases u with
      | nil => simp [lexLe] at h2
      | cons c u =>
        unfold lexLe at h1 h2 ⊢
        rcases Nat.lt_trichotomy a.toNat b.toNat with hab | hab | hab
        · rcases Nat.lt_trichotomy b.toNat c.toNat with hbc | hbc | hbc
          · simp [Nat.lt_trans hab hbc]
          · simp [show a.toNat < c.toNat from hbc ▸ hab]
          · simp [Nat.lt_asymm hbc, hbc] at h2
        · rw [hab] at h1 ⊢
          simp [Nat.lt_irrefl] at h1
          rcases Nat.lt_trichotomy b.toNat c.toNat with hbc | hbc | hbc
          · simp [hbc]
          · rw [hbc] at h2 ⊢
            simp [Nat.lt_irrefl] at h2
            simp [Nat.lt_irrefl]
            exact ih t u h1 h2
          · simp [Nat.lt_asymm hbc, hbc] at h2
        · simp [Nat.lt_asymm hab, hab] at h1

/-- lexLe is antisymmetric. -/
theorem lexLe_antisymm (s t : PyStr) (h1 : lexLe s t = true)
    (h2 : lexLe t s = true) : s = t := by
  induction s generalizing t with
  | nil =>
    cases t with
    | nil => rfl
    | cons b t => simp [lexLe] at h2
  | cons a s ih =>
    cases t with
    | nil => simp [lexLe] at h1
    | cons b t =>
      unfold lexLe at h1 h2
      rcases Nat.lt_trichotomy a.toNat b.toNat with hab | hab | hab
      · simp [Nat.lt_asymm hab, hab] at h2
      · have hc : a = b := char_eq_of_toNat_eq hab
        subst hc
        simp [Nat.lt_irrefl] at h1 h2
        rw [ih t h1 h2]
      · simp [Nat.lt_asymm hab, hab] at h1

/-- Inserting a record never reorders records of any fixed bucket label:
the insertion point lies strictly after every record with a greater
label, so equal-label records keep their order. -/
theorem filter_orderedInsert (lab : PyStr) (a : PropResult)
    (l : List PropResult) :
    (List.orderedInsert conf_rel a l).filter
        (fun x => decide (conf_label x = lab)) =
      if conf_label a = lab then
        a :: l.filter (fun x => decide (conf_label x = lab))
      else l.filter (fun x => decide (conf_label x = lab)) := by
  induction l with
  | nil =>
    simp only [List.orderedInsert, List.filter]
    split_ifs with h
    · simp [h]
    · simp [h]
  | cons b l ih =>
    unfold List.orderedInsert
    by_cases hr : conf_rel a b
    · rw [if_pos hr]
      simp only [List.filter_cons]
      split_ifs <;> simp_all
    · rw [if_neg hr]
      have hlab : conf_label b ≠ conf_label a := by
        intro he
        apply hr
        unfold conf_rel
        rw [he]
        exact lexLe_refl _
      rw [List.filter_cons, ih]
      by_cases hpa : conf_label a = lab
      · have hpb : ¬ conf_label b = lab := fun hb => hlab (hb.trans hpa.symm)
        simp [hpa, hpb, List.filter_cons]
      · simp [hpa, List.filter_cons]

/-- The whole confidence sort never reorders records within any fixed
bucket label (stability). -/
theorem filter_insertionSort (lab : PyStr) (l : List PropResult) :
    (List.insertionSort conf_rel l).filter
        (fun x => decide (conf_label x = lab)) =
      l.filter (fun x => decide (conf_label x = lab)) := by
  induction l with
  | nil => rfl
  | cons a l ih =>
    rw [List.insertionSort, filter_orderedInsert, ih, List.filter_cons]
    split_ifs with h1 h2 h2 <;> simp_all

/-- The confidence branch of sort_results is the stable descending sort
by bucket label. -/
theorem sort_results_confidence (l : List PropResult) :
    sort_results l "confidence" = List.insertionSort conf_rel l := rfl

/-- C9.  Sorting by confidence permutes the records (adds, removes and
modifies nothing), is stable on every bucket label, and orders by the
bucket label strings descending under string comparison — not by the
integer score: concretely, a score-7 HIGH record sorts after a score-0
VERY LOW record, because the string VERY LOW is greater than the string
HIGH. -/
theorem c9_confidence_sort_by_label :
    (∀ l : List PropResult, (sort_results l "confidence").Perm l) ∧
    (∀ l : List PropResult,
      List.Pairwise (fun x y => lexLe (conf_label y) (conf_label x) = true)
        (sort_results l "confidence")) ∧
    (∀ (l : List PropResult) (lab : PyStr),
      (sort_results l "confidence").filter
          (fun x => decide (conf_label x = lab)) =
        l.filter (fun x => decide (conf_label x = lab))) ∧
    confidence_score 1 30 25 35 = 7 ∧
    confidence_score 0 25 25 0 = 0 ∧
    conf_label hiRec = ("HIGH").data ∧
    conf_label loRec = ("VERY LOW").data ∧
    sort_results [hiRec, loRec] "confidence" = [loRec, hiRec] := by
  have hs1 : confidence_score 1 30 25 35 = 7 := by norm_num [confidence_score]
  have hs0 : confidence_score 0 25 25 0 = 0 := by norm_num [confidence_score]
  have hg1 : get_confidence_level 1 30 25 35 = ("🟢", "HIGH") := by
    unfold get_confidence_level
    rw [hs1]
    rfl
  have hg0 : get_confidence_level 0 25 25 0 = ("🔴", "VERY LOW") := by
    unfold get_confidence_level
    rw [hs0]
    rfl
  have hhi : conf_label hiRec = ("HIGH").data := by
    unfold conf_label hiRec
    rw [hg1]
  have hlo : conf_label loRec = ("VERY LOW").data := by
    unfold conf_label loRec
    rw [hg0]
  haveI htotal : IsTotal PropResult conf_rel :=
    ⟨fun a b => lexLe_total (conf_label b) (conf_label a)⟩
  haveI htrans : IsTrans PropResult conf_rel :=
    ⟨fun a b c hab hbc =>
      lexLe_trans (conf_label c) (conf_label b) (conf_label a) hbc hab⟩
  refine ⟨?_, ?_, ?_, hs1, hs0, hhi, hlo, ?_⟩
  · intro l
    rw [sort_results_confidence]
    exact List.perm_insertionSort conf_rel l
  · intro l
    rw [sort_results_confidence]
    exact List.sorted_insertionSort conf_rel l
  · intro l lab
    rw [sort_results_confidence]
    exact filter_insertionSort lab l
  · rw [sort_results_confidence]
    have hnr : ¬ conf_rel hiRec loRec := by
      unfold conf_rel
      rw [hhi, hlo]
      decide
    simp [List.insertionSort, List.orderedInsert, hnr]

end PropPulse



